import Mathlib

/-!
Shallow embedding of the camera-interaction and plane-fitting logic of
`src/gl/GLView.cpp` (Meshroom's GLView Qt Quick item), together with proofs
settling the specification claims about it.

Modelling conventions:
* Qt `float`/`qreal` values are modelled as exact rationals (`ℚ`); the
  floating-point square root used by `QVector3D::normalize` and
  `QQuaternion::normalize` is modelled by `ratSqrt`, which is exact whenever
  the radicand's numerator and denominator are perfect squares (all concrete
  inputs used below are of that form, or avoid the square-root branch
  entirely via Qt's early return when the squared length is 1 or 0).
* `QMatrix4x4` is row-major, as in the Qt API used by `GLView.cpp`
  (`cam.row(i)`); `translate`/`rotate` post-multiply, as Qt does.
* `QPoint`/`QRect` use exact integers, matching Qt's `int` coordinates.
-/

namespace Meshroom

/-- Exact rational square root used to model the floating-point `sqrt` inside
`QVector3D::normalize` and `QQuaternion::normalize`; exact on rationals whose
numerator and denominator are perfect squares. -/
def ratSqrt (q : ℚ) : ℚ := (Nat.sqrt q.num.toNat : ℚ) / (Nat.sqrt q.den : ℚ)

/-- Model of `QVector3D` (exact-rational components). -/
structure Vec3 where
  x : ℚ
  y : ℚ
  z : ℚ
  deriving DecidableEq, Repr

def Vec3.zero : Vec3 := ⟨0, 0, 0⟩

def Vec3.neg (v : Vec3) : Vec3 := ⟨-v.x, -v.y, -v.z⟩

def Vec3.add (a b : Vec3) : Vec3 := ⟨a.x + b.x, a.y + b.y, a.z + b.z⟩

def Vec3.sub (a b : Vec3) : Vec3 := ⟨a.x - b.x, a.y - b.y, a.z - b.z⟩

/-- `QVector3D * float` (componentwise scale). -/
def Vec3.smul (v : Vec3) (s : ℚ) : Vec3 := ⟨v.x * s, v.y * s, v.z * s⟩

def Vec3.divs (v : Vec3) (s : ℚ) : Vec3 := ⟨v.x / s, v.y / s, v.z / s⟩

def Vec3.lengthSq (v : Vec3) : ℚ := v.x * v.x + v.y * v.y + v.z * v.z

/-- Model of `QVector3D::normalize`: Qt returns the vector unchanged when the
squared length is (fuzzily) 1 or 0, otherwise divides by the square root. -/
def Vec3.normalize (v : Vec3) : Vec3 :=
  let len := v.lengthSq
  if len = 1 then v
  else if len = 0 then v
  else v.divs (ratSqrt len)

/-- Model of a `QMatrix4x4` row (`cam.row(i)` is a `QVector4D`). -/
structure Vec4 where
  x : ℚ
  y : ℚ
  z : ℚ
  w : ℚ
  deriving DecidableEq, Repr

/-- `QVector3D(QVector4D)`: drops the w component. -/
def Vec4.toVec3 (v : Vec4) : Vec3 := ⟨v.x, v.y, v.z⟩

/-- Model of `QMatrix4x4`, row-major as exposed by `QMatrix4x4::row`. -/
structure Mat4 where
  r0 : Vec4
  r1 : Vec4
  r2 : Vec4
  r3 : Vec4
  deriving DecidableEq, Repr

def Mat4.id4 : Mat4 :=
  ⟨⟨1, 0, 0, 0⟩, ⟨0, 1, 0, 0⟩, ⟨0, 0, 1, 0⟩, ⟨0, 0, 0, 1⟩⟩

/-- Effect of `QMatrix4x4::translate(t)` (post-multiplication by a translation
matrix) on one row: only the fourth-column entry changes. -/
def Vec4.translateRow (r : Vec4) (t : Vec3) : Vec4 :=
  ⟨r.x, r.y, r.z, r.x * t.x + r.y * t.y + r.z * t.z + r.w⟩

/-- `QMatrix4x4::translate(t)`: `this = this * T(t)`. -/
def Mat4.translate (m : Mat4) (t : Vec3) : Mat4 :=
  ⟨m.r0.translateRow t, m.r1.translateRow t, m.r2.translateRow t, m.r3.translateRow t⟩

/-- One row of a matrix product `r * b`. -/
def Vec4.mulRow (r : Vec4) (b : Mat4) : Vec4 :=
  ⟨r.x * b.r0.x + r.y * b.r1.x + r.z * b.r2.x + r.w * b.r3.x,
   r.x * b.r0.y + r.y * b.r1.y + r.z * b.r2.y + r.w * b.r3.y,
   r.x * b.r0.z + r.y * b.r1.z + r.z * b.r2.z + r.w * b.r3.z,
   r.x * b.r0.w + r.y * b.r1.w + r.z * b.r2.w + r.w * b.r3.w⟩

/-- Row-major matrix product. -/
def Mat4.mul (a b : Mat4) : Mat4 :=
  ⟨a.r0.mulRow b, a.r1.mulRow b, a.r2.mulRow b, a.r3.mulRow b⟩

/-- Model of `QQuaternion` (`QQuaternion(scalar, vector)` order: w then xyz). -/
structure Quat where
  w : ℚ
  x : ℚ
  y : ℚ
  z : ℚ
  deriving DecidableEq, Repr

/-- Model of `QQuaternion::normalize`: returns the quaternion unchanged when
its squared length is (fuzzily) 1 or 0, otherwise divides by the root. -/
def Quat.normalize (q : Quat) : Quat :=
  let len := q.x * q.x + q.y * q.y + q.z * q.z + q.w * q.w
  if len = 1 then q
  else if len = 0 then q
  else ⟨q.w / ratSqrt len, q.x / ratSqrt len, q.y / ratSqrt len, q.z / ratSqrt len⟩

/-- Hamilton product, as in `QQuaternion::operator*`. -/
def Quat.mul (a b : Quat) : Quat :=
  ⟨a.w * b.w - a.x * b.x - a.y * b.y - a.z * b.z,
   a.w * b.x + a.x * b.w + a.y * b.z - a.z * b.y,
   a.w * b.y - a.x * b.z + a.y * b.w + a.z * b.x,
   a.w * b.z + a.x * b.y - a.y * b.x + a.z * b.w⟩

/-- Standard unit-quaternion-to-matrix conversion used by
`QMatrix4x4::rotate(const QQuaternion &)`. -/
def quatRotMat (q : Quat) : Mat4 :=
  ⟨⟨1 - 2 * (q.y * q.y + q.z * q.z), 2 * (q.x * q.y - q.z * q.w),
    2 * (q.x * q.z + q.y * q.w), 0⟩,
   ⟨2 * (q.x * q.y + q.z * q.w), 1 - 2 * (q.x * q.x + q.z * q.z),
    2 * (q.y * q.z - q.x * q.w), 0⟩,
   ⟨2 * (q.x * q.z - q.y * q.w), 2 * (q.y * q.z + q.x * q.w),
    1 - 2 * (q.x * q.x + q.y * q.y), 0⟩,
   ⟨0, 0, 0, 1⟩⟩

/-- `QMatrix4x4::rotate(quaternion)`: `this = this * R(q)`. -/
def Mat4.rotateQ (m : Mat4) (q : Quat) : Mat4 := m.mul (quatRotMat q)

/-! ## Selection rectangle (`GLView::getSelectionRect`, GLView.cpp:64-69) -/

/-- Model of `QPoint` (integer coordinates). -/
structure Pt where
  x : ℤ
  y : ℤ
  deriving DecidableEq, Repr

/-- Model of `QRect` as stored by Qt: corner coordinates `x1,y1` (top-left)
and `x2,y2` (bottom-right, inclusive). -/
structure QRect where
  x1 : ℤ
  y1 : ℤ
  x2 : ℤ
  y2 : ℤ
  deriving DecidableEq, Repr

/-- `QRect::adjusted(dx1, dy1, dx2, dy2)`. -/
def QRect.adjusted (r : QRect) (dx1 dy1 dx2 dy2 : ℤ) : QRect :=
  ⟨r.x1 + dx1, r.y1 + dy1, r.x2 + dx2, r.y2 + dy2⟩

/-- `QRect::isEmpty`: true iff width or height is non-positive, i.e.
`x2 < x1 ∨ y2 < y1` (Qt width is `x2 - x1 + 1`). -/
def QRect.isEmpty (r : QRect) : Bool := r.x2 < r.x1 || r.y2 < r.y1

/-- `GLView::getSelectionRect` (GLView.cpp:64-69): rectangle spanned by the
two selection corner points, shrunk by one pixel at bottom-right so that
`p0 == p1` yields an empty rectangle. -/
def getSelectionRect (p0 p1 : Pt) : QRect :=
  (QRect.mk (min p0.x p1.x) (min p0.y p1.y) (max p0.x p1.x) (max p0.y p1.y)).adjusted 0 0 (-1) (-1)

/-! ## Interaction modes and mouse release (`GLView::mouseReleaseEvent`,
GLView.cpp:242-251) -/

/-- `GLView`'s camera interaction mode enum. -/
inductive CameraMode where
  | Idle
  | Rotate
  | Translate
  | Zoom
  deriving DecidableEq, Repr

/-- Keyboard modifier held during a mouse event; `GLView` only ever compares
the modifier set against these single values. -/
inductive Modifier where
  | alt
  | control
  | shift
  | noModifier
  deriving DecidableEq, Repr

/-- Mouse button of a release event. -/
inductive MouseButton where
  | left
  | mid
  | right
  | noButton
  deriving DecidableEq, Repr

/-- The mutable `GLView` state touched by `mouseReleaseEvent` and the
selection handlers. -/
structure ViewState where
  cameraMode : CameraMode
  selectedP0 : Pt
  selectedP1 : Pt
  selectedArea : QRect
  clearSelection : Bool
  openPopupEmitted : Bool
  deriving DecidableEq, Repr

/-- `GLView::handleSelectionMouseReleaseEvent` (GLView.cpp:409-416): flags a
selection clear when the corners coincide, publishes the selection rectangle,
and resets both corner points to the null `QPoint`. -/
def handleSelectionMouseReleaseEvent (st : ViewState) : ViewState :=
  let st1 := if st.selectedP0 = st.selectedP1 then { st with clearSelection := true } else st
  { st1 with
    selectedArea := getSelectionRect st.selectedP0 st.selectedP1,
    selectedP0 := ⟨0, 0⟩,
    selectedP1 := ⟨0, 0⟩ }

/-- `GLView::mouseReleaseEvent` (GLView.cpp:242-251): Alt resets the camera
mode to Idle; Control delegates to the selection release handler; an
unmodified right-button release emits `openPopup`; anything else only
triggers a repaint. -/
def mouseReleaseEvent (st : ViewState) (mods : Modifier) (button : MouseButton) : ViewState :=
  if mods = Modifier.alt then { st with cameraMode := CameraMode.Idle }
  else if mods = Modifier.control then handleSelectionMouseReleaseEvent st
  else if mods = Modifier.noModifier ∧ button = MouseButton.right then
    { st with openPopupEmitted := true }
  else st

/-! ## Camera operations (GLView.cpp:363-402) -/

/-- The sign factor computed inside `GLView::turnTableRotateCamera`
(GLView.cpp:371): `cam.row(1).y() > 0 ? 1.f : -1.f`. -/
def turnTableSign (cam : Mat4) : ℚ := if 0 < cam.r1.y then 1 else -1

/-- The vector part of the yaw quaternion built by
`GLView::turnTableRotateCamera` (GLView.cpp:368-373):
`-y * dx * 0.005 * sign` with `y = QVector3D(0,1,0).normalized()`. -/
def turnTableYawVec (cam : Mat4) (dx : ℚ) : Vec3 :=
  (((Vec3.normalize ⟨0, 1, 0⟩).neg.smul dx).smul 0.005).smul (turnTableSign cam)

/-- `GLView::turnTableRotateCamera` (GLView.cpp:363-381): normalizes the
camera's local X row, builds a yaw quaternion about world-up (sign-corrected
when the camera is upside-down) and a pitch quaternion about local X, and
applies their product about the `lookAt` point. -/
def turnTableRotateCamera (cam : Mat4) (lookAt : Vec3) (dx dy : ℚ) : Mat4 :=
  let x := (Vec4.toVec3 cam.r0).normalize
  let ry := Quat.normalize ⟨1, (turnTableYawVec cam dx).x, (turnTableYawVec cam dx).y,
    (turnTableYawVec cam dx).z⟩
  let rxv := (x.neg.smul dy).smul 0.005
  let rx := Quat.normalize ⟨1, rxv.x, rxv.y, rxv.z⟩
  ((cam.translate lookAt).rotateQ (rx.mul ry)).translate lookAt.neg

/-- `GLView::translateLineOfSightCamera` (GLView.cpp:395-402): moves the
camera along its normalized local Z row by `offset = 0.01 * (dx + dy)` and
adds the same offset to the orbit radius. Returns the updated matrix and
radius (the C++ mutates both through references). -/
def translateLineOfSightCamera (cam : Mat4) (radius dx dy : ℚ) : Mat4 × ℚ :=
  let z := (Vec4.toVec3 cam.r2).normalize
  let offset := (0.01 : ℚ) * (dx + dy)
  (cam.translate (z.neg.smul offset), radius + offset)

/-! ## Plane fitting (`GLView::definePlane` and friends, GLView.cpp:439-495) -/

/-- The plane-fit state stored in `GLView` (`_planeOrigin`, `_planeNormal`,
`_yrotDegrees`, `_planeDefined`). -/
structure PlaneState where
  planeOrigin : Vec3
  planeNormal : Vec3
  yrotDegrees : ℚ
  planeDefined : Bool
  deriving DecidableEq, Repr

/-- The failure signals named by the specification for the plane fit. -/
inductive PlaneError where
  | insufficientPoints
  | degeneratePlane
  deriving DecidableEq, Repr

/-- The 3×3 left-singular-vector factor `U` produced by Eigen's
`JacobiSVD<MatrixXf> svd(mat, ComputeThinU)`, stored as its three columns
(`U.col(0)`, `U.col(1)`, `U.col(2)`). -/
structure Mat3 where
  c0 : Vec3
  c1 : Vec3
  c2 : Vec3
  deriving DecidableEq, Repr

def Vec3.listSum : List Vec3 → Vec3
  | [] => Vec3.zero
  | v :: vs => v.add (Vec3.listSum vs)

/-- `mat.rowwise().sum() / mat.cols()` in `GLView::definePlane`
(GLView.cpp:457): the centroid of the selected points. -/
def centroid (pts : List Vec3) : Vec3 := (Vec3.listSum pts).divs (pts.length : ℚ)

/-- `GLView::definePlane` (GLView.cpp:439-469). The only guard in the code is
`_selectedPoints->size() < 3`, which warns and returns with the state
untouched (modelled as the `insufficientPoints` signal). Otherwise the code
unconditionally stores the centroid as `_planeOrigin`, takes the SVD of the
mean-centered point matrix, stores `U.col(2)` as `_planeNormal`, and sets
`_planeDefined`. The SVD itself is Eigen library code (external to this
repository), so it is a parameter `svdU`; for `ComputeThinU` on a 3×N matrix
with N ≥ 3 the factor is always 3×3, so the `Q_ASSERT` on its shape holds
and no code path inspects the singular values or rank. -/
def definePlane (svdU : List Vec3 → Mat3) (pts : List Vec3) (st : PlaneState) :
    PlaneState × Option PlaneError :=
  if pts.length < 3 then (st, some PlaneError.insufficientPoints)
  else
    let origin := centroid pts
    let centered := pts.map (fun p => p.sub origin)
    let U := svdU centered
    ({ st with planeOrigin := origin, planeNormal := U.c2, planeDefined := true }, none)

/-- `GLView::defineYRot` (GLView.cpp:487-495): stores the given degrees as
the roll angle — with no clamping — unless the stored plane normal is the
null vector, in which case it does nothing. -/
def defineYRot (degrees : ℚ) (st : PlaneState) : PlaneState :=
  if st.planeNormal = Vec3.zero then st
  else { st with yrotDegrees := degrees, planeDefined := true }

/-- `GLView::handleYRotMouseMoveEvent` (GLView.cpp:429-435): the horizontal
pointer delta is clamped to [-359, 359] and passed to `defineYRot`. -/
def handleYRotMouseMoveEvent (eventX mouseX : ℤ) (st : PlaneState) : PlaneState :=
  let d0 := eventX - mouseX
  let d1 := if d0 < -359 then -359 else d0
  let d2 := if d1 > 359 then 359 else d1
  defineYRot (d2 : ℚ) st

/-! ## Scale definition (`GLView::defineScale`, GLView.cpp:497-509) -/

/-- The scale state stored in `GLView` (`_distanceLine`, `_scale`,
`_scaleDefined`). -/
structure ScaleState where
  line0 : Vec3
  line1 : Vec3
  scale : ℚ
  scaleDefined : Bool
  deriving DecidableEq, Repr

/-- `GLView::defineScale` (GLView.cpp:497-509): returns immediately unless
exactly 2 points are selected; otherwise stores the two points as the
distance line, the given scale, and sets `_scaleDefined`. -/
def defineScale (pts : List Vec3) (s : ℚ) (st : ScaleState) : ScaleState :=
  match pts with
  | [p0, p1] => { line0 := p0, line1 := p1, scale := s, scaleDefined := true }
  | _ => st

/-! ## Helper lemmas -/

theorem Mat4.mul_id4 (m : Mat4) : m.mul Mat4.id4 = m := by
  cases m with
  | mk a b c d =>
    cases a; cases b; cases c; cases d
    simp [Mat4.mul, Vec4.mulRow, Mat4.id4]

theorem Mat4.translate_translate_neg (m : Mat4) (v : Vec3) :
    (m.translate v).translate v.neg = m := by
  cases m with
  | mk a b c d =>
    cases a; cases b; cases c; cases d
    simp [Mat4.translate, Vec4.translateRow, Vec3.neg]
    repeat' constructor
    all_goals ring

theorem normalize_up : Vec3.normalize ⟨0, 1, 0⟩ = ⟨0, 1, 0⟩ := by
  norm_num [Vec3.normalize, Vec3.lengthSq]

theorem quat_normalize_one : Quat.normalize ⟨1, 0, 0, 0⟩ = ⟨1, 0, 0, 0⟩ := by
  norm_num [Quat.normalize]

theorem quatRotMat_one : quatRotMat ⟨1, 0, 0, 0⟩ = Mat4.id4 := by
  norm_num [quatRotMat, Mat4.id4]

/-! ## Claim theorems -/

/-- Claim C10: `getSelectionRect` is symmetric in the two selection corner
points, and when the corners coincide the returned rectangle is empty. -/
theorem selection_rect_symm_empty (p0 p1 : Pt) :
    getSelectionRect p0 p1 = getSelectionRect p1 p0 ∧
    (p0 = p1 → (getSelectionRect p0 p1).isEmpty = true) := by
  constructor
  · simp [getSelectionRect, min_comm, max_comm]
  · intro h
    subst h
    simp [getSelectionRect, QRect.adjusted, QRect.isEmpty]

/-- Witness for C10: the rectangle of two coincident corners is empty. -/
theorem selection_rect_symm_empty_witness :
    (getSelectionRect ⟨3, 4⟩ ⟨3, 4⟩).isEmpty = true :=
  (selection_rect_symm_empty ⟨3, 4⟩ ⟨3, 4⟩).2 rfl

/-- Claim C9: `defineScale` is a no-op whenever the number of selected points
differs from 2: the distance line, stored scale, and the defined flag are all
left unchanged. -/
theorem defineScale_requires_two (pts : List Vec3) (s : ℚ) (st : ScaleState)
    (h : pts.length ≠ 2) : defineScale pts s st = st := by
  cases pts with
  | nil => rfl
  | cons a t =>
    cases t with
    | nil => rfl
    | cons b u =>
      cases u with
      | nil => exact absurd (by simp) h
      | cons c v => rfl

/-- Witness for C9: `defineScale` on an empty selection returns the state
unchanged. -/
theorem defineScale_requires_two_witness :
    defineScale [] 5 ⟨Vec3.zero, Vec3.zero, 1, false⟩ = ⟨Vec3.zero, Vec3.zero, 1, false⟩ :=
  defineScale_requires_two [] 5 ⟨Vec3.zero, Vec3.zero, 1, false⟩ (by decide)

/-- Claim C5 (amended): a pointer release resets the interaction mode to Idle
exactly when the Alt modifier is held; a release with any other modifier
leaves the mode unchanged. -/
theorem release_mode_alt_only (st : ViewState) (mods : Modifier) (button : MouseButton) :
    (mouseReleaseEvent st mods button).cameraMode =
      if mods = Modifier.alt then CameraMode.Idle else st.cameraMode := by
  cases mods <;> cases button <;>
    simp [mouseReleaseEvent, handleSelectionMouseReleaseEvent] <;>
    split <;> rfl

/-- Counterexample for C5 as stated: a release carrying the Control modifier
while the mode is Rotate leaves the mode at Rotate, not Idle. -/
theorem release_control_keeps_mode :
    (mouseReleaseEvent ⟨CameraMode.Rotate, ⟨0, 0⟩, ⟨0, 0⟩, ⟨0, 0, 0, 0⟩, false, false⟩
        Modifier.control MouseButton.left).cameraMode = CameraMode.Rotate ∧
      CameraMode.Rotate ≠ CameraMode.Idle := by
  decide

/-- Claim C4 (amended): a dolly adds `offset = 0.01 * (dx + dy)` to the orbit
radius, with no clamping; in particular non-negativity is not enforced. -/
theorem dolly_radius_update (cam : Mat4) (radius dx dy : ℚ) :
    (translateLineOfSightCamera cam radius dx dy).2 = radius + (0.01 : ℚ) * (dx + dy) := rfl

/-- Counterexample for C4 as stated: from the non-negative radius 0, a dolly
with `dx = -100, dy = 0` leaves the orbit radius at -1, which is negative. -/
theorem dolly_radius_can_go_negative :
    (0 : ℚ) ≤ 0 ∧ (translateLineOfSightCamera Mat4.id4 0 (-100) 0).2 < 0 := by
  constructor
  · exact le_refl 0
  · show (0 : ℚ) + (0.01 : ℚ) * (-100 + 0) < 0
    norm_num

/-- Claim C2: with fewer than 3 selected points, `definePlane` fails with the
insufficient-points signal and returns the plane state completely unchanged,
for every SVD backend. -/
theorem definePlane_insufficient_points (svdU : List Vec3 → Mat3) (pts : List Vec3)
    (st : PlaneState) (h : pts.length < 3) :
    definePlane svdU pts st = (st, some PlaneError.insufficientPoints) := by
  simp [definePlane, h]

/-- Witness for C2: `definePlane` on an empty selection fails with
`insufficientPoints` and leaves the state unchanged. -/
theorem definePlane_insufficient_points_witness :
    definePlane (fun _ => ⟨Vec3.zero, Vec3.zero, Vec3.zero⟩) [] ⟨Vec3.zero, Vec3.zero, 0, false⟩ =
      (⟨Vec3.zero, Vec3.zero, 0, false⟩, some PlaneError.insufficientPoints) :=
  definePlane_insufficient_points _ [] ⟨Vec3.zero, Vec3.zero, 0, false⟩ (by decide)

/-- Claim C1 (amended): for every input of at least 3 points — degenerate or
not — `definePlane` performs no degeneracy check and cannot fail with
`degeneratePlane`: it stores the centroid as the plane origin, the third
column of the SVD factor as the normal, and marks the plane defined. -/
theorem definePlane_no_degenerate_check (svdU : List Vec3 → Mat3) (pts : List Vec3)
    (st : PlaneState) (h : 3 ≤ pts.length) :
    definePlane svdU pts st =
      ({ st with planeOrigin := centroid pts,
                 planeNormal := (svdU (pts.map (fun p => p.sub (centroid pts)))).c2,
                 planeDefined := true }, none) := by
  unfold definePlane
  rw [if_neg (Nat.not_lt.mpr h)]

/-- Witness for C1 (amended) at a concrete 3-point input: the fit succeeds
(no error signal) and marks the plane defined. -/
theorem definePlane_no_degenerate_check_witness :
    (definePlane (fun _ => (⟨⟨1, 0, 0⟩, ⟨0, 1, 0⟩, ⟨0, 0, 1⟩⟩ : Mat3))
        [⟨0, 0, 0⟩, ⟨1, 0, 0⟩, ⟨0, 1, 0⟩] ⟨Vec3.zero, Vec3.zero, 0, false⟩).2 = none ∧
      (definePlane (fun _ => (⟨⟨1, 0, 0⟩, ⟨0, 1, 0⟩, ⟨0, 0, 1⟩⟩ : Mat3))
        [⟨0, 0, 0⟩, ⟨1, 0, 0⟩, ⟨0, 1, 0⟩] ⟨Vec3.zero, Vec3.zero, 0, false⟩).1.planeDefined = true := by
  rw [definePlane_no_degenerate_check (fun _ => (⟨⟨1, 0, 0⟩, ⟨0, 1, 0⟩, ⟨0, 0, 1⟩⟩ : Mat3))
    [⟨0, 0, 0⟩, ⟨1, 0, 0⟩, ⟨0, 1, 0⟩] ⟨Vec3.zero, Vec3.zero, 0, false⟩ (by decide)]
  exact ⟨rfl, rfl⟩

/-- Counterexample for C1 as stated: on 3 collinear points (a rank-deficient
input), `definePlane` does not fail with `degeneratePlane`; it stores a
normal and marks the plane defined, changing the stored state. -/
theorem definePlane_collinear_succeeds :
    ((definePlane (fun _ => ⟨⟨1, 0, 0⟩, ⟨0, 1, 0⟩, ⟨0, 0, 1⟩⟩)
        [⟨0, 0, 0⟩, ⟨1, 0, 0⟩, ⟨2, 0, 0⟩] ⟨Vec3.zero, Vec3.zero, 0, false⟩).2 ≠
          some PlaneError.degeneratePlane) ∧
      ((definePlane (fun _ => ⟨⟨1, 0, 0⟩, ⟨0, 1, 0⟩, ⟨0, 0, 1⟩⟩)
        [⟨0, 0, 0⟩, ⟨1, 0, 0⟩, ⟨2, 0, 0⟩] ⟨Vec3.zero, Vec3.zero, 0, false⟩).1.planeDefined = true) ∧
      ((definePlane (fun _ => ⟨⟨1, 0, 0⟩, ⟨0, 1, 0⟩, ⟨0, 0, 1⟩⟩)
        [⟨0, 0, 0⟩, ⟨1, 0, 0⟩, ⟨2, 0, 0⟩] ⟨Vec3.zero, Vec3.zero, 0, false⟩).1 ≠
          ⟨Vec3.zero, Vec3.zero, 0, false⟩) := by
  refine ⟨?_, ?_, ?_⟩ <;>
    · unfold definePlane
      rw [if_neg (by decide)]
      try simp

/-- Claim C3 (amended): `defineYRot` stores its argument without any
clamping (unless the plane normal is null, in which case it and the
mouse-move path are no-ops); the clamping to [-359, 359] happens in
`handleYRotMouseMoveEvent`, which clamps the pointer delta before passing it
on, so every roll stored through the mouse path lies in [-359, 359]. -/
theorem yrot_clamp_behavior (st : PlaneState) (eventX mouseX : ℤ) (d : ℚ) :
    ((defineYRot d st).yrotDegrees =
        if st.planeNormal = Vec3.zero then st.yrotDegrees else d) ∧
      (st.planeNormal = Vec3.zero →
        handleYRotMouseMoveEvent eventX mouseX st = st ∧ defineYRot d st = st) ∧
      (st.planeNormal ≠ Vec3.zero →
        -359 ≤ (handleYRotMouseMoveEvent eventX mouseX st).yrotDegrees ∧
          (handleYRotMouseMoveEvent eventX mouseX st).yrotDegrees ≤ 359) := by
  refine ⟨?_, ?_, ?_⟩
  · by_cases h : st.planeNormal = Vec3.zero <;> simp [defineYRot, h]
  · intro h
    constructor <;> simp [handleYRotMouseMoveEvent, defineYRot, h]
  · intro h
    have hlo : (-359 : ℤ) ≤
        (if (if eventX - mouseX < -359 then -359 else eventX - mouseX) > 359 then 359
          else if eventX - mouseX < -359 then -359 else eventX - mouseX) := by
      split_ifs <;> omega
    have hhi : (if (if eventX - mouseX < -359 then -359 else eventX - mouseX) > 359 then 359
          else if eventX - mouseX < -359 then -359 else eventX - mouseX) ≤ (359 : ℤ) := by
      split_ifs <;> omega
    simp only [handleYRotMouseMoveEvent, defineYRot, if_neg h]
    constructor
    · exact_mod_cast Int.cast_le.mpr hlo
    · exact_mod_cast Int.cast_le.mpr hhi

/-- Witness for C3 (amended): with a defined normal, a huge pointer delta is
stored clamped inside [-359, 359]; with a null normal, `defineYRot` changes
nothing. -/
theorem yrot_clamp_behavior_witness :
    (-359 ≤ (handleYRotMouseMoveEvent 500 0 ⟨Vec3.zero, ⟨0, 0, 1⟩, 0, false⟩).yrotDegrees ∧
      (handleYRotMouseMoveEvent 500 0 ⟨Vec3.zero, ⟨0, 0, 1⟩, 0, false⟩).yrotDegrees ≤ 359) ∧
      defineYRot 7 ⟨Vec3.zero, Vec3.zero, 0, false⟩ = ⟨Vec3.zero, Vec3.zero, 0, false⟩ :=
  ⟨(yrot_clamp_behavior ⟨Vec3.zero, ⟨0, 0, 1⟩, 0, false⟩ 500 0 7).2.2 (by norm_num [Vec3.zero]),
   ((yrot_clamp_behavior ⟨Vec3.zero, Vec3.zero, 0, false⟩ 500 0 7).2.1 rfl).2⟩

/-- Counterexample for C3 as stated: `defineYRot 400` on a state with a
defined normal stores 400, not the claimed clamped value 359. -/
theorem defineYRot_does_not_clamp :
    (defineYRot 400 ⟨Vec3.zero, ⟨0, 0, 1⟩, 0, false⟩).yrotDegrees = 400 ∧
      (400 : ℚ) ≠ 359 := by
  constructor
  · norm_num [defineYRot, Vec3.zero]
  · norm_num

/-- Claim C8 (amended): the yaw quaternion's vector part built by
`turnTableRotateCamera` is `(0, -dx * 0.005 * sign, 0)`, and the sign is
flipped (equals -1) exactly when the camera's `row(1).y` is non-positive —
the code tests `> 0`, so `row(1).y = 0` also flips the sign. -/
theorem turntable_sign_nonpositive (cam : Mat4) (dx : ℚ) :
    turnTableYawVec cam dx = ⟨0, -1 * dx * 0.005 * turnTableSign cam, 0⟩ ∧
      turnTableSign cam = (if cam.r1.y ≤ 0 then -1 else 1) := by
  constructor
  · simp [turnTableYawVec, normalize_up, Vec3.neg, Vec3.smul]
    try ring
  · unfold turnTableSign
    by_cases h : 0 < cam.r1.y
    · rw [if_pos h, if_neg (not_le.mpr h)]
    · rw [if_neg h, if_pos (le_of_not_lt h)]

/-- Counterexample for C8 as stated: a camera whose `row(1).y` equals 0 (a
non-negative value) still gets the flipped sign -1. -/
theorem turntable_sign_at_zero :
    turnTableSign ⟨⟨1, 0, 0, 0⟩, ⟨1, 0, 0, 0⟩, ⟨0, 0, 1, 0⟩, ⟨0, 0, 0, 1⟩⟩ = -1 ∧
      (0 : ℚ) ≤ (Mat4.mk ⟨1, 0, 0, 0⟩ ⟨1, 0, 0, 0⟩ ⟨0, 0, 1, 0⟩ ⟨0, 0, 0, 1⟩).r1.y := by
  constructor
  · norm_num [turnTableSign]
  · exact le_refl 0

/-- Claim C6: a dolly by `(dx, dy)` followed by a dolly by `(-dx, -dy)`
restores both the view matrix and the orbit radius exactly. -/
theorem dolly_reversible (cam : Mat4) (radius dx dy : ℚ) :
    translateLineOfSightCamera (translateLineOfSightCamera cam radius dx dy).1
      (translateLineOfSightCamera cam radius dx dy).2 (-dx) (-dy) = (cam, radius) := by
  cases cam with
  | mk a b c d =>
    cases a; cases b; cases c; cases d
    simp only [translateLineOfSightCamera, Mat4.translate, Vec4.translateRow, Vec4.toVec3,
      Vec3.neg, Vec3.smul]
    rcases Vec3.normalize _ with ⟨zx, zy, zz⟩
    simp only [Prod.mk.injEq, Mat4.mk.injEq, Vec4.mk.injEq]
    repeat' constructor
    all_goals ring

/-- Claim C7: a turntable rotation step with `dx = dy = 0` applies the
identity rotation and leaves the view matrix unchanged. -/
theorem turntable_zero_delta_id (cam : Mat4) (lookAt : Vec3) :
    turnTableRotateCamera cam lookAt 0 0 = cam := by
  have hyaw : turnTableYawVec cam 0 = ⟨0, 0, 0⟩ := by
    simp [turnTableYawVec, normalize_up, Vec3.neg, Vec3.smul]
  have hpitch : (((Vec4.toVec3 cam.r0).normalize.neg.smul 0).smul 0.005) = (⟨0, 0, 0⟩ : Vec3) := by
    simp [Vec3.neg, Vec3.smul]
  have hmul : Quat.mul ⟨1, 0, 0, 0⟩ ⟨1, 0, 0, 0⟩ = ⟨1, 0, 0, 0⟩ := by
    norm_num [Quat.mul]
  simp only [turnTableRotateCamera, hyaw, hpitch, quat_normalize_one, hmul, Mat4.rotateQ,
    quatRotMat_one, Mat4.mul_id4, Mat4.translate_translate_neg]

end Meshroom
